import Mathlib

/-!
Verification development for the data-visualization coursework repository
(scripts dvc_ex1.py .. dvc_ex4.py).  The embedding below models the data
processing and event-handler logic of the two interactive applications:

* dvc_ex4.py — an animated map of US tech companies: the derived-table
  builder create_df (year projection, threshold masking, group-and-aggregate),
  the period-advance handler update_year, and the play/pause animation
  state machine.
* dvc_ex3.py — a PCA explorer: the pca and clustering pipeline, the color
  mapper create_cmap, and the subplot builders draw_hist and draw_bar_chart.

Numeric cell values are rationals; a pandas missing value (NaN) is Option.none.
The key semantic facts of the host libraries that the embedding encodes:
a NaN compared with < is False; assigning a column to a dataframe mutates it
in place; selecting a list of columns returns a copy; np.histogram of data
containing NaN and no explicit range raises ValueError; np.histogram of an
empty array uses the default range (0, 1) and returns all-zero counts;
a numpy array is unhashable, so using one as a dict key raises TypeError.
-/

namespace DataVis

/-- Python exception kinds that the embedded fragments can raise. -/
inductive PyError where
  | typeError
  | valueError
  | keyError
deriving DecidableEq, Repr

/-! ### dvc_ex4.py, Task 1: data processing -/

/-- A row of the raw us_company_map table.  The yearly columns
    Market Cap 2019 .. Market Cap 2022 and Employees 2019 .. Employees 2022
    are modelled as functions from the year; a missing cell is none. -/
structure CompanyRow where
  symbol : Option String
  city : String
  x : ℚ
  y : ℚ
  marketCap : Nat → Option ℚ
  employees : Nat → Option ℚ

/-- A row of the frame built by create_df after column selection and
    renaming: Symbol, City, x, y, Market Cap, Employees. -/
structure DfRow where
  symbol : Option String
  city : String
  x : ℚ
  y : ℚ
  marketCap : Option ℚ
  employees : Option ℚ
deriving DecidableEq, Repr

/-- Column selection and renaming step of create_df: take Symbol, City, x, y
    and the Market Cap / Employees columns of the given year. -/
def selectYear (year : Nat) (r : CompanyRow) : DfRow :=
  { symbol := r.symbol
  , city := r.city
  , x := r.x
  , y := r.y
  , marketCap := r.marketCap year
  , employees := r.employees year }

/-- The pandas condition df[Market Cap] < market_cap_lower on one cell:
    a NaN cell compares as False. -/
def capBelow (cap : Option ℚ) (lower : ℚ) : Bool :=
  match cap with
  | some v => v < lower
  | none => false

/-- Masking step of create_df: rows whose Market Cap is below the threshold
    get Symbol, Market Cap and Employees replaced by NaN; the row stays. -/
def maskRow (lower : ℚ) (r : DfRow) : DfRow :=
  if capBelow r.marketCap lower then
    { r with symbol := none, marketCap := none, employees := none }
  else r

/-- The frame df of create_df after lines 93-99 of dvc_ex4.py: year
    projection followed by threshold masking, one output row per input row. -/
def create_df_filtered (year : Nat) (lower : ℚ) (base : List CompanyRow) :
    List DfRow :=
  base.map (fun r => maskRow lower (selectYear year r))

/-- A row of the aggregated main frame: groupby City with Market Cap and
    Employees summed, x and y averaged, Symbol counted. -/
structure CityAggRow where
  city : String
  marketCap : ℚ
  employees : ℚ
  x : ℚ
  y : ℚ
  symbolCount : Nat
deriving DecidableEq, Repr

/-- Sum of the present values of a column, as pandas sum skips NaN. -/
def optSum (l : List (Option ℚ)) : ℚ :=
  (l.filterMap id).sum

/-- Arithmetic mean of a list of rationals (groups are nonempty in use). -/
def qMean (l : List ℚ) : ℚ :=
  l.sum / l.length

/-- Aggregation of one City group: sum of Market Cap and Employees over the
    present cells, mean of x and y, count of the present Symbol cells. -/
def cityAgg (rows : List DfRow) (c : String) : CityAggRow :=
  let g := rows.filter (fun r => r.city = c)
  { city := c
  , marketCap := optSum (g.map (fun r => r.marketCap))
  , employees := optSum (g.map (fun r => r.employees))
  , x := qMean (g.map (fun r => r.x))
  , y := qMean (g.map (fun r => r.y))
  , symbolCount := (g.filterMap (fun r => r.symbol)).length }

/-- The distinct group keys of groupby(City).  pandas sorts the keys; the
    key order is presentational only and all theorems below are stated per
    key, so the embedding keeps them in first-occurrence order. -/
def groupCities (rows : List DfRow) : List String :=
  (rows.map (fun r => r.city)).dedup

/-- create_df with main=True: the filtered frame grouped by City and
    aggregated (lines 106-113 of dvc_ex4.py). -/
def create_df_main (year : Nat) (lower : ℚ) (base : List CompanyRow) :
    List CityAggRow :=
  let rows := create_df_filtered year lower base
  (groupCities rows).map (cityAgg rows)

/-- create_df with main=False: the filtered frame restricted to the selected
    city (line 117 of dvc_ex4.py). -/
def create_df_sub (year : Nat) (lower : ℚ) (city : String)
    (base : List CompanyRow) : List DfRow :=
  (create_df_filtered year lower base).filter (fun r => r.city = city)

/-! ### dvc_ex4.py, Task 4: the update_year handler and the play button -/

/-- The session state of the map application: the module-level globals
    year, city, market_cap_lower together with the display elements that the
    handlers rewrite (the year label, the subplot title, the two sources). -/
structure MapAppState where
  year : Nat
  city : String
  marketCapLower : ℚ
  labelText : String
  subplotTitle : String
  mainData : List CityAggRow
  subData : List DfRow

/-- The period-advance handler update_year of dvc_ex4.py: increment the
    year, wrap above 2022 back to 2019, and rebuild every year-dependent
    display element from the base table. -/
def update_year (base : List CompanyRow) (s : MapAppState) : MapAppState :=
  let y0 := s.year + 1
  let y := if y0 > 2022 then 2019 else y0
  { s with
    year := y
  , labelText := toString y
  , subplotTitle := "Tech Companies in " ++ s.city ++ " Year " ++ toString y
  , mainData := create_df_main y s.marketCapLower base
  , subData := create_df_sub y s.marketCapLower s.city base }

/-- The animation control state: the play-button label, the list of
    currently registered periodic callbacks (their ids), the stored callback
    handle, and the id supply of the document. -/
structure AnimState where
  btnLabel : String
  timers : List Nat
  callback : Option Nat
  nextId : Nat
deriving DecidableEq, Repr

/-- Initial animation state: label Play, no periodic callback registered. -/
def initAnimState : AnimState :=
  { btnLabel := "► Play", timers := [], callback := none, nextId := 0 }

/-- The play handler of dvc_ex4.py: when the button shows Play, flip the
    label to Pause and register a periodic callback, storing its handle;
    otherwise flip the label back to Play and deregister the stored one. -/
def play (s : AnimState) : AnimState :=
  if s.btnLabel = "► Play" then
    { btnLabel := "❚❚ Pause"
    , timers := s.timers ++ [s.nextId]
    , callback := some s.nextId
    , nextId := s.nextId + 1 }
  else
    { s with
      btnLabel := "► Play"
    , timers := s.timers.filter (fun t => !(s.callback = some t)) }

/-! ### dvc_ex3.py: the PCA explorer -/

/-- A dataframe cell: a Python string, a number, or a missing value (NaN). -/
inductive Val where
  | str : String → Val
  | num : ℚ → Val
  | missing : Val
deriving DecidableEq, Repr

/-- A dataframe of dvc_ex3.py: an ordered list of named columns. -/
abbrev Df := List (String × List Val)

/-- Column access df[name]; absent names do not occur on the traced paths. -/
def getCol (df : Df) (name : String) : List Val :=
  ((df.find? (fun c => c.1 = name)).map (fun c => c.2)).getD []

/-- Column assignment df[name] = v: pandas overwrites an existing column of
    that name and otherwise appends a new one, mutating df in place. -/
def setCol (df : Df) (name : String) (v : List Val) : Df :=
  if df.any (fun c => c.1 = name) then
    df.map (fun c => if c.1 = name then (name, v) else c)
  else df ++ [(name, v)]

/-- Reading a cell in a numeric context (columns 5.. of the pca_data table
    are numeric): a number is a value, NaN is missing.  A Python string in a
    numeric computation would raise, which the callers below never do. -/
def toOptQ : Val → Option ℚ
  | Val.num q => some q
  | _ => none

/-- Minimum of the present values of a column (pandas min skips NaN);
    0 for an all-missing column, a corner no traced path reaches. -/
def colMin (c : List (Option ℚ)) : ℚ :=
  match c.filterMap id with
  | [] => 0
  | v :: vs => vs.foldl min v

/-- Maximum of the present values of a column, as colMin. -/
def colMax (c : List (Option ℚ)) : ℚ :=
  match c.filterMap id with
  | [] => 0
  | v :: vs => vs.foldl max v

/-- MinMaxScaler on one feature column: (x - min) / (max - min), computed
    over the present values; NaN passes through; sklearn guards a zero
    range by dividing by 1 instead. -/
def scaleCol (c : List (Option ℚ)) : List (Option ℚ) :=
  let mn := colMin c
  let mx := colMax c
  let d := if mx = mn then 1 else mx - mn
  c.map (Option.map (fun x => (x - mn) / d))

/-- SimpleImputer with the mean strategy on one column: every missing cell
    is replaced by the mean of the present cells.  (sklearn drops a column
    whose cells are all missing; the pca_data table has none such, and here
    such a column imputes 0.) -/
def imputeCol (c : List (Option ℚ)) : List ℚ :=
  let vs := c.filterMap id
  let m := vs.sum / vs.length
  c.map (fun x => x.getD m)

/-- The numeric feature block df.iloc[:, 5:] of dvc_ex3.py, column-major. -/
def numericBlock (df : Df) : List (List (Option ℚ)) :=
  (df.drop 5).map (fun c => c.2.map toOptQ)

/-- The pca function of dvc_ex3.py, with the black-box library projection
    abstracted as proj (it maps the imputed, scaled feature block to the two
    principal-component columns).  The steps, in source order: select the
    numeric features, MinMaxScaler, SimpleImputer with the mean, project to
    2 components, then append the two components to the dataframe in place. -/
def pca (proj : List (List ℚ) → List ℚ × List ℚ) (df : Df) : Df :=
  let X := numericBlock df
  let Xscaled := X.map scaleCol
  let Ximp := Xscaled.map imputeCol
  let Xpca := proj Ximp
  let df1 := setCol df "PCA 1" (Xpca.1.map Val.num)
  setCol df1 "PCA 2" (Xpca.2.map Val.num)

/-- Does a column name match the anchored regex PCA blank digit of
    df.filter(regex) in the clustering function: exactly the four
    characters P, C, A, blank followed by one decimal digit. -/
def isPcaColName (s : String) : Bool :=
  match s.data with
  | ['P', 'C', 'A', ' ', d] => d.isDigit
  | _ => false

/-- The clustering function of dvc_ex3.py, with the black-box
    MiniBatchKMeans fit abstracted as kmeans (a function of the numpy
    global-RNG state, the cluster count and the selected PCA columns).
    np.random.seed(0) replaces whatever the ambient RNG state rngState is
    with the seeded state 0 before the fit, so the fit never sees rngState;
    the string labels are appended to the dataframe in place. -/
def clustering (kmeans : Nat → Nat → Df → List Nat) (rngState : Nat)
    (df : Df) (n_clusters : Nat) : Df :=
  let Xpca := df.filter (fun c => isPcaColName c.1)
  let seeded := 0
  let labels := kmeans seeded n_clusters Xpca
  setCol df "Cluster" (labels.map (fun l => Val.str (toString l)))

/-- The module-level initialization df = clustering(pca(pca_data)) followed
    by df[label] = df[Market Cap] (lines 417-429 of dvc_ex3.py); because
    pca and clustering mutate their argument in place and return it, the
    result is the state of the base table pca_data afterwards. -/
def moduleInitDf (proj : List (List ℚ) → List ℚ × List ℚ)
    (kmeans : Nat → Nat → Df → List Nat) (rngState : Nat) (df : Df) : Df :=
  let d := clustering kmeans rngState (pca proj df) 2
  setCol d "label" (getCol d "Market Cap")

/-- Is a cell a Python string. -/
def isStrVal : Val → Bool
  | Val.str _ => true
  | _ => false

/-- pandas dtype dispatch for a column of the pca_data frame: a column
    holding Python strings has object dtype, every other column of this
    frame (numbers, possibly with NaN) has a numeric dtype. -/
def isObjectDtype (c : List Val) : Bool :=
  c.any isStrVal

/-- A Bokeh color mapper: factor_cmap for a categorical column, log_cmap or
    linear_cmap with the column minimum and maximum for a numeric one (the
    palettes and override colors are cosmetic constants, not modelled). -/
inductive CMapper where
  | factor (field : String) (factors : List String)
  | logMap (field : String) (low high : ℚ)
  | linMap (field : String) (low high : ℚ)
deriving DecidableEq, Repr

/-- The create_cmap function of dvc_ex3.py.  On the categorical branch the
    source builds the category-to-color dict with the comprehension
    written as open brace, l : color for color in palette, close brace:
    every entry is keyed by the whole uniques array l, and a numpy array is
    unhashable, so constructing the dict raises TypeError before the
    function can return.  On the numeric branch the mapper is log_cmap when
    the column minimum is at least 0 and linear_cmap otherwise, and the
    category palette is None. -/
def create_cmap (df : Df) (col : String) :
    Except PyError (CMapper × Option (List (String × String))) :=
  let c := getCol df col
  if isObjectDtype c then
    Except.error PyError.typeError
  else
    let q := c.map toOptQ
    let mapper :=
      if 0 ≤ colMin q then CMapper.logMap col (colMin q) (colMax q)
      else CMapper.linMap col (colMin q) (colMax q)
    Except.ok (mapper, none)

/-- Number of rows of the frame (the length of its first column). -/
def nRows (df : Df) : Nat :=
  match df with
  | [] => 0
  | c :: _ => c.2.length

/-- df.loc over the rows ps and the columns PCA 1, PCA 2 and col: the frame
    has an integer range index, so the labels are the positions; a label
    outside the index raises KeyError. -/
def locRows (df : Df) (col : String) (ps : List Nat) :
    Except PyError (List (Val × Val × Val)) :=
  if ps.all (fun i => i < nRows df) then
    Except.ok (ps.map (fun i =>
      ((getCol df "PCA 1").getD i Val.missing,
       (getCol df "PCA 2").getD i Val.missing,
       (getCol df col).getD i Val.missing)))
  else Except.error PyError.keyError

/-- Multiplicity of a value in a list. -/
def countOcc [DecidableEq α] (l : List α) (v : α) : Nat :=
  (l.filter (fun x => x = v)).length

/-- Insertion step of the descending-count ordering of value_counts. -/
def insertByCountDesc [DecidableEq α] (l : List α) (v : α) :
    List α → List α
  | [] => [v]
  | w :: ws =>
    if countOcc l w < countOcc l v then v :: w :: ws
    else w :: insertByCountDesc l v ws

/-- Sort the distinct values by descending multiplicity in l, as the pandas
    value_counts presentation order. -/
def sortByCountDesc [DecidableEq α] (l : List α) (d : List α) : List α :=
  d.foldr (insertByCountDesc l) []

/-- pandas Series.value_counts: multiplicities of the distinct present
    values (NaN dropped), in descending count order. -/
def seriesValueCounts (vals : List Val) : List (Val × Nat) :=
  let present := vals.filter (fun v => !(v = Val.missing))
  (sortByCountDesc present present.dedup).map (fun v => (v, countOcc present v))

/-- pandas DataFrame.value_counts on the three-column selection s: counts
    of the distinct rows, a row being the triple of the PCA 1, PCA 2 and
    feature cells; rows containing NaN are dropped. -/
def dfValueCounts (rows : List (Val × Val × Val)) :
    List ((Val × Val × Val) × Nat) :=
  let present := rows.filter (fun t =>
    !(t.1 = Val.missing) && !(t.2.1 = Val.missing) && !(t.2.2 = Val.missing))
  (sortByCountDesc present present.dedup).map (fun t => (t, countOcc present t))

/-- The bar-chart data source assembled by draw_bar_chart. -/
structure BarSource where
  categories : List Val
  count_all : List Nat
  count_sel : List Nat
  color : List String
deriving DecidableEq, Repr

/-- The draw_bar_chart function of dvc_ex3.py up to its ColumnDataSource:
    the selected rows s, the full distribution dis, the selected-row
    distribution dis_s (a DataFrame.value_counts, so it counts the distinct
    PCA 1, PCA 2, feature triples and its index has three levels), the
    per-category selected counts (the membership test c in dis_s.index and
    the lookup dis_s.loc[c] address the first index level, the PCA 1
    values), then the palette from create_cmap and the bar colors taken
    from cat_palette at the integer keys range(len(cat)). -/
def draw_bar_chart (df : Df) (col : String) (ps : List Nat) :
    Except PyError BarSource := do
  let s ← locRows df col ps
  let dis := seriesValueCounts (getCol df col)
  let dis_s := dfValueCounts s
  let cat := dis.map (fun e => e.1)
  let count := dis.map (fun e => e.2)
  let count_s := cat.map (fun c =>
    match dis_s.find? (fun t => t.1.1 = c) with
    | some t => t.2
    | none => 0)
  let pal ← create_cmap df col
  let cat_color ←
    match pal.2 with
    | none =>
      -- on the numeric branch cat_palette is None, and indexing None
      -- raises TypeError unless the comprehension range is empty
      if cat.length = 0 then Except.ok ([] : List String)
      else Except.error PyError.typeError
    | some _ =>
      -- the dict keys would be category labels, so the integer lookups
      -- cat_palette[c] for c in range(len(cat)) raise KeyError
      if cat.length = 0 then Except.ok ([] : List String)
      else Except.error PyError.keyError
  Except.ok { categories := cat, count_all := count
            , count_sel := count_s, color := cat_color }

/-- Reading a cell for a numpy numeric computation: NaN for a missing cell,
    TypeError for a Python string. -/
def valToNum : Val → Except PyError (Option ℚ)
  | Val.num q => Except.ok (some q)
  | Val.missing => Except.ok none
  | Val.str _ => Except.error PyError.typeError

/-- Convert a list of cells for numpy. -/
def toNumList (vals : List Val) : Except PyError (List (Option ℚ)) :=
  vals.mapM valToNum

/-- Count of the values landing in bin i of bins equal-width bins over
    the range lo..hi; as in numpy, the last bin is closed on the right. -/
def binCount (vs : List ℚ) (lo hi : ℚ) (bins i : Nat) : Nat :=
  let w := (hi - lo) / (bins : ℚ)
  let l := lo + (i : ℚ) * w
  let r := lo + ((i : ℚ) + 1) * w
  (vs.filter (fun x => l ≤ x ∧ (x < r ∨ (i + 1 = bins ∧ x ≤ r)))).length

/-- np.histogram with the default bin count and no explicit range: if the
    data contains NaN the autodetected range is not finite and numpy raises
    ValueError; an empty array gets the default range (0, 1); when the
    minimum equals the maximum numpy widens the range by one half on each
    side; the result is the bin counts and the bin edges. -/
def npHistogram (a : List (Option ℚ)) (bins : Nat) :
    Except PyError (List Nat × List ℚ) :=
  if a.any (fun x => x.isNone) then Except.error PyError.valueError
  else
    let vs := a.filterMap id
    let lohi : ℚ × ℚ :=
      match vs with
      | [] => (0, 1)
      | v :: tl => (tl.foldl min v, tl.foldl max v)
    let lohi := if lohi.1 = lohi.2 then (lohi.1 - 1/2, lohi.2 + 1/2) else lohi
    Except.ok ((List.range bins).map (binCount vs lohi.1 lohi.2 bins),
      (List.range (bins + 1)).map (fun k =>
        lohi.1 + (k : ℚ) * ((lohi.2 - lohi.1) / (bins : ℚ))))

/-- The histogram data source assembled by draw_hist. -/
structure HistSource where
  top : List Nat
  top_s : List Nat
  left : List ℚ
  right : List ℚ
deriving DecidableEq, Repr

/-- The draw_hist function of dvc_ex3.py up to its ColumnDataSource: the
    selected rows s, then np.histogram over all the cells of the
    three-column frame df[[PCA 1, PCA 2, col]] (numpy ravels the block; the
    ravel order does not affect a histogram), then np.histogram over the
    cells of s, each with the default ten bins and an autodetected range. -/
def draw_hist (df : Df) (col : String) (ps : List Nat) :
    Except PyError HistSource := do
  let s ← locRows df col ps
  let allNums ← toNumList (getCol df "PCA 1" ++ getCol df "PCA 2" ++ getCol df col)
  let h ← npHistogram allNums 10
  let selNums ← toNumList ((s.map (fun t => [t.1, t.2.1, t.2.2])).flatten)
  let hs ← npHistogram selNums 10
  Except.ok { top := h.1, top_s := hs.1
            , left := h.2.dropLast, right := h.2.drop 1 }

/-- The subplot dispatch draw_subplot of dvc_ex3.py: histogram for a
    numeric feature, bar chart for a categorical one. -/
def draw_subplot (df : Df) (ft_selected : String) (points_selected : List Nat) :
    Except PyError (Sum HistSource BarSource) :=
  if !isObjectDtype (getCol df ft_selected) then
    (draw_hist df ft_selected points_selected).map Sum.inl
  else
    (draw_bar_chart df ft_selected points_selected).map Sum.inr

/-! ### Example tables used by the concrete witnesses -/

/-- Example company A with market cap 50 in every year. -/
def exA : CompanyRow :=
  { symbol := some "A", city := "San Jose", x := 10, y := 20
  , marketCap := fun _ => some 50, employees := fun _ => some 1000 }

/-- Example company B with market cap 150 in every year. -/
def exB : CompanyRow :=
  { symbol := some "B", city := "San Jose", x := 30, y := 40
  , marketCap := fun _ => some 150, employees := fun _ => some 2000 }

/-- Example company C whose market cap is missing in every year. -/
def exC : CompanyRow :=
  { symbol := some "C", city := "Reno", x := 50, y := 60
  , marketCap := fun _ => none, employees := fun _ => some 3000 }

/-- The base table of end-to-end scenario 1. -/
def exBaseAB : List CompanyRow := [exA, exB]

/-- A session state of the map application sitting at year 2022. -/
def exState2022 : MapAppState :=
  { year := 2022, city := "San Jose", marketCapLower := 0
  , labelText := "2022", subplotTitle := "", mainData := [], subData := [] }

/-! ### C1: filter-by-threshold masks, keeps the row, keeps City, x, y -/

/-- C1: in create_df, a base row whose Market Cap for the selected year is
    strictly below the threshold has its Symbol, Market Cap and Employees
    cells replaced by the missing marker, while the row itself stays in the
    frame, the frame keeps one row per base row, and the City, x and y
    cells of the row are unchanged. -/
theorem create_df_mask_below_threshold (year : Nat) (lower : ℚ)
    (base : List CompanyRow) (r : CompanyRow) (hr : r ∈ base) (v : ℚ)
    (hv : r.marketCap year = some v) (hlt : v < lower) :
    (create_df_filtered year lower base).length = base.length ∧
    maskRow lower (selectYear year r) ∈ create_df_filtered year lower base ∧
    (maskRow lower (selectYear year r)).symbol = none ∧
    (maskRow lower (selectYear year r)).marketCap = none ∧
    (maskRow lower (selectYear year r)).employees = none ∧
    (maskRow lower (selectYear year r)).city = r.city ∧
    (maskRow lower (selectYear year r)).x = r.x ∧
    (maskRow lower (selectYear year r)).y = r.y := by
  refine ⟨by simp [create_df_filtered], List.mem_map_of_mem _ hr, ?_⟩
  simp [maskRow, selectYear, capBelow, hv, hlt]

/-- Witness for C1 at end-to-end scenario 1: base rows A with cap 50 and B
    with cap 150, threshold 100; the frame keeps both rows, the A row is
    masked with its City, x, y intact, and the B row is fully retained. -/
theorem create_df_mask_below_threshold_witness :
    (create_df_filtered 2022 100 exBaseAB).length = 2 ∧
    maskRow 100 (selectYear 2022 exA) ∈ create_df_filtered 2022 100 exBaseAB ∧
    (maskRow 100 (selectYear 2022 exA)).symbol = none ∧
    (maskRow 100 (selectYear 2022 exA)).marketCap = none ∧
    (maskRow 100 (selectYear 2022 exA)).employees = none ∧
    (maskRow 100 (selectYear 2022 exA)).city = "San Jose" ∧
    (maskRow 100 (selectYear 2022 exA)).x = 10 ∧
    (maskRow 100 (selectYear 2022 exA)).y = 20 ∧
    maskRow 100 (selectYear 2022 exB) = selectYear 2022 exB := by
  have h := create_df_mask_below_threshold 2022 100 exBaseAB exA
    (List.mem_cons_self _ _) 50 rfl (by norm_num)
  exact ⟨h.1, h.2.1, h.2.2.1, h.2.2.2.1, h.2.2.2.2.1, h.2.2.2.2.2.1,
    h.2.2.2.2.2.2.1, h.2.2.2.2.2.2.2, by decide⟩

/-! ### C2: the period-advance handler wraps 2019..2022 -/

/-- C2: one invocation of update_year advances a year in 2019..2021 to the
    next year and wraps 2022 back to 2019. -/
theorem update_year_wraps (base : List CompanyRow) (s : MapAppState)
    (h1 : 2019 ≤ s.year) (h2 : s.year ≤ 2022) :
    (update_year base s).year = if s.year < 2022 then s.year + 1 else 2019 := by
  unfold update_year
  dsimp only
  split_ifs <;> omega

/-- Witness for C2: from year 2022 the handler wraps to 2019, and from 2020
    it advances to 2021. -/
theorem update_year_wraps_witness :
    (update_year [] exState2022).year = 2019 ∧
    (update_year [] { exState2022 with year := 2020 }).year = 2021 := by
  constructor
  · have h := update_year_wraps [] exState2022 (by decide) (by decide)
    simpa using h
  · have h := update_year_wraps [] { exState2022 with year := 2020 }
      (by decide) (by decide)
    simpa using h

/-! ### C6: clustering determinism -/

/-- C6: two calls of the clustering step on the same frame with the same
    cluster count produce identical frames and identical cluster-label
    columns, whatever the ambient numpy RNG states of the two runs were,
    because the function reseeds the RNG with the fixed seed 0 before the
    fit. -/
theorem clustering_deterministic (kmeans : Nat → Nat → Df → List Nat)
    (r1 r2 : Nat) (df : Df) (k : Nat) :
    clustering kmeans r1 df k = clustering kmeans r2 df k ∧
    getCol (clustering kmeans r1 df k) "Cluster" =
      getCol (clustering kmeans r2 df k) "Cluster" :=
  ⟨rfl, rfl⟩

/-! ### C8: at most one periodic timer in every reachable state -/

/-- Invariant of the animation state machine: the button label tells
    whether a timer is registered, and at most the stored one is. -/
def animInv (s : AnimState) : Prop :=
  (s.btnLabel = "► Play" ∧ s.timers = []) ∨
  (s.btnLabel = "❚❚ Pause" ∧ ∃ i, s.timers = [i] ∧ s.callback = some i)

/-- The initial animation state satisfies the invariant. -/
theorem animInv_init : animInv initAnimState :=
  Or.inl ⟨rfl, rfl⟩

/-- One press of the play button preserves the invariant. -/
theorem animInv_play (s : AnimState) (h : animInv s) : animInv (play s) := by
  rcases h with ⟨hl, ht⟩ | ⟨hl, i, ht, hc⟩
  · unfold play
    rw [if_pos hl]
    exact Or.inr ⟨rfl, s.nextId, by simp [ht], rfl⟩
  · unfold play
    rw [if_neg (by rw [hl]; decide)]
    exact Or.inl ⟨rfl, by rw [ht, hc]; simp⟩

/-- C8: in every state reachable from the initial stopped state by any
    sequence of play-button presses (each press is the start command when
    the label shows Play and the stop command otherwise), at most one
    periodic timer is registered. -/
theorem play_at_most_one_timer (n : Nat) :
    ((play^[n]) initAnimState).timers.length ≤ 1 := by
  have h : animInv ((play^[n]) initAnimState) := by
    induction n with
    | zero => exact animInv_init
    | succ k ih =>
      rw [Function.iterate_succ_apply']
      exact animInv_play _ ih
  rcases h with ⟨_, ht⟩ | ⟨_, i, ht, _⟩ <;> simp [ht]

/-! ### C10: a missing market cap is never masked -/

/-- C10: a create_df row whose Market Cap for the selected year is missing
    is left untouched by the threshold mask for every threshold, because a
    NaN compared with < is False; in particular its Symbol and Employees
    cells are unchanged. -/
theorem missing_market_cap_not_masked (year : Nat) (lower : ℚ)
    (r : CompanyRow) (h : r.marketCap year = none) :
    maskRow lower (selectYear year r) = selectYear year r ∧
    (maskRow lower (selectYear year r)).symbol = r.symbol ∧
    (maskRow lower (selectYear year r)).employees = r.employees year := by
  have hmask : capBelow (selectYear year r).marketCap lower = false := by
    simp [selectYear, capBelow, h]
  have heq : maskRow lower (selectYear year r) = selectYear year r := by
    simp [maskRow, hmask]
  exact ⟨heq, by rw [heq]; rfl, by rw [heq]; rfl⟩

/-- Witness for C10: company C has a missing market cap, and even the huge
    threshold 1000000 leaves its Symbol and Employees cells unchanged. -/
theorem missing_market_cap_not_masked_witness :
    maskRow 1000000 (selectYear 2022 exC) = selectYear 2022 exC ∧
    (maskRow 1000000 (selectYear 2022 exC)).symbol = some "C" ∧
    (maskRow 1000000 (selectYear 2022 exC)).employees = some 3000 := by
  have h := missing_market_cap_not_masked 2022 1000000 exC rfl
  exact ⟨h.1, h.2.1, h.2.2⟩

/-! ### C3: the bar-chart builder raises on every categorical feature -/

/-- Example PCA-explorer frame: one row, two numeric principal-component
    columns and one categorical column. -/
def exDf3 : Df :=
  [("PCA 1", [Val.num 0]), ("PCA 2", [Val.num 0]),
   ("Country", [Val.str "US"])]

/-- C3 (the code defect): the claim says the bar-chart builder always
    yields a defined selected-count entry per category and never errors,
    but invoking draw_bar_chart on a categorical feature raises TypeError
    for the empty selection and for a nonempty one alike: create_cmap
    builds the category-color dict keyed by the whole (unhashable) numpy
    uniques array, so the build raises before the source is assembled;
    with that slip repaired, the bar colors would still index the
    label-keyed dict with the integers range(len(cat)), a KeyError. -/
theorem draw_bar_chart_raises_on_categorical :
    draw_bar_chart exDf3 "Country" [] = Except.error PyError.typeError ∧
    draw_bar_chart exDf3 "Country" [0] = Except.error PyError.typeError :=
  ⟨rfl, rfl⟩

/-! ### C4: the histogram builder on the empty selection -/

/-- Is a cell a number (neither a string nor missing). -/
def isNumVal : Val → Bool
  | Val.num _ => true
  | _ => false

/-- Converting a list of all-numeric cells for numpy succeeds and yields
    the corresponding rationals. -/
theorem toNumList_all_num (vals : List Val) (h : vals.all isNumVal = true) :
    toNumList vals = Except.ok (vals.map toOptQ) := by
  induction vals with
  | nil => rfl
  | cons v vs ih =>
    rw [List.all_cons, Bool.and_eq_true] at h
    have hv := h.1
    have ihv := ih h.2
    cases v with
    | num q =>
      simp only [toNumList, List.mapM_cons, valToNum] at ihv ⊢
      rw [ihv]
      rfl
    | str s => simp [isNumVal] at hv
    | missing => simp [isNumVal] at hv

/-- The numpy view of an all-numeric cell list contains no NaN. -/
theorem map_toOptQ_no_none (vals : List Val) (h : vals.all isNumVal = true) :
    (vals.map toOptQ).any (fun x => x.isNone) = false := by
  induction vals with
  | nil => rfl
  | cons v vs ih =>
    rw [List.all_cons, Bool.and_eq_true] at h
    cases v with
    | num q => simpa [toOptQ] using ih h.2
    | str s => simp [isNumVal] at h
    | missing => simp [isNumVal] at h

/-- Reduction of a bind of an ok value in the Except monad. -/
theorem exc_bind_ok {ε α β : Type} (a : α) (f : α → Except ε β) :
    (Except.ok a >>= f) = f a := rfl

/-- C4 counterexample: the claim says the histogram builder succeeds on
    every numeric feature column with the empty selection, but a numeric
    column containing a missing value makes np.histogram of the full table
    fail to autodetect a finite range, so draw_hist raises ValueError even
    for the empty selection. -/
theorem draw_hist_missing_value_error :
    draw_hist
      [("PCA 1", [Val.num 0, Val.num 0]), ("PCA 2", [Val.num 0, Val.num 0]),
       ("Feature", [Val.num 1, Val.missing])]
      "Feature" [] = Except.error PyError.valueError :=
  rfl

/-- C4 as amended: for a numeric feature column with no missing values
    (and none in the two principal-component columns that the source
    histograms together with it), the histogram builder applied to the
    empty selected-index set succeeds and its selected counts series is
    identically zero, one zero per default bin. -/
theorem draw_hist_empty_selection_zeros (df : Df) (col : String)
    (h : (getCol df "PCA 1" ++ getCol df "PCA 2" ++ getCol df col).all
      isNumVal = true) :
    ∃ src, draw_hist df col [] = Except.ok src ∧
      src.top_s = List.replicate 10 0 := by
  have hloc : locRows df col [] = Except.ok [] := by
    simp [locRows]
  have hnum := toNumList_all_num _ h
  have hnone := map_toOptQ_no_none _ h
  obtain ⟨te, hte⟩ : ∃ te,
      npHistogram (((getCol df "PCA 1" ++ getCol df "PCA 2" ++ getCol df col)).map
        toOptQ) 10 = Except.ok te := by
    unfold npHistogram
    rw [if_neg (by simp only [hnone]; exact Bool.false_ne_true)]
    exact ⟨_, rfl⟩
  refine ⟨⟨te.1, (List.range 10).map (binCount [] 0 1 10),
    te.2.dropLast, te.2.drop 1⟩, ?_, ?_⟩
  · unfold draw_hist
    rw [hloc, exc_bind_ok, hnum, exc_bind_ok, hte, exc_bind_ok]
    rfl
  · show (List.range 10).map (binCount [] 0 1 10) = List.replicate 10 0
    decide

/-- Witness for the amended C4 on a concrete all-numeric frame: the empty
    lasso selection yields the all-zero selected counts series. -/
theorem draw_hist_empty_selection_zeros_witness :
    ∃ src,
      draw_hist
        [("PCA 1", [Val.num 0, Val.num 1]), ("PCA 2", [Val.num 0, Val.num 2]),
         ("F", [Val.num 3, Val.num 5])] "F" [] = Except.ok src ∧
      src.top_s = List.replicate 10 0 :=
  draw_hist_empty_selection_zeros
    [("PCA 1", [Val.num 0, Val.num 1]), ("PCA 2", [Val.num 0, Val.num 2]),
     ("F", [Val.num 3, Val.num 5])] "F" (by decide)

/-! ### C5: group-and-aggregate in create_df with main=True -/

/-- The mask keeps the City cell. -/
theorem maskStep_city (year : Nat) (lower : ℚ) (r : CompanyRow) :
    (maskRow lower (selectYear year r)).city = r.city := by
  cases h : capBelow (r.marketCap year) lower <;> simp [maskRow, selectYear, h]

/-- The mask keeps the x cell. -/
theorem maskStep_x (year : Nat) (lower : ℚ) (r : CompanyRow) :
    (maskRow lower (selectYear year r)).x = r.x := by
  cases h : capBelow (r.marketCap year) lower <;> simp [maskRow, selectYear, h]

/-- The mask keeps the y cell. -/
theorem maskStep_y (year : Nat) (lower : ℚ) (r : CompanyRow) :
    (maskRow lower (selectYear year r)).y = r.y := by
  cases h : capBelow (r.marketCap year) lower <;> simp [maskRow, selectYear, h]

/-- The Symbol cell after the mask. -/
theorem maskStep_symbol (year : Nat) (lower : ℚ) (r : CompanyRow) :
    (maskRow lower (selectYear year r)).symbol =
      if capBelow (r.marketCap year) lower then none else r.symbol := by
  cases h : capBelow (r.marketCap year) lower <;> simp [maskRow, selectYear, h]

/-- The Market Cap cell after the mask. -/
theorem maskStep_marketCap (year : Nat) (lower : ℚ) (r : CompanyRow) :
    (maskRow lower (selectYear year r)).marketCap =
      if capBelow (r.marketCap year) lower then none else r.marketCap year := by
  cases h : capBelow (r.marketCap year) lower <;> simp [maskRow, selectYear, h]

/-- The Employees cell after the mask. -/
theorem maskStep_employees (year : Nat) (lower : ℚ) (r : CompanyRow) :
    (maskRow lower (selectYear year r)).employees =
      if capBelow (r.marketCap year) lower then none else r.employees year := by
  cases h : capBelow (r.marketCap year) lower <;> simp [maskRow, selectYear, h]

/-- Filtering a mapped list along a predicate that the map reflects. -/
theorem filter_map_comm {α β : Type} (f : α → β) (p : β → Bool) (q : α → Bool)
    (hpq : ∀ a, p (f a) = q a) (l : List α) :
    (l.map f).filter p = (l.filter q).map f := by
  induction l with
  | nil => rfl
  | cons a l ih =>
    rw [List.map_cons, List.filter_cons, List.filter_cons, hpq]
    cases q a
    · simpa using ih
    · simp [ih]

/-- Restricting the filtered frame to one city is the mask applied to the
    base rows of that city, because the mask keeps the City cell. -/
theorem filter_city_map (year : Nat) (lower : ℚ) (base : List CompanyRow)
    (c : String) :
    (create_df_filtered year lower base).filter (fun r => r.city = c) =
      (base.filter (fun r => r.city = c)).map
        (fun r => maskRow lower (selectYear year r)) := by
  unfold create_df_filtered
  exact filter_map_comm _ _ _ (fun r => by rw [maskStep_city]) base

/-- Looking up one city in the aggregated table built over a duplicate-free
    key list returns that city's aggregate row. -/
theorem find?_map_cityAgg (rows : List DfRow) (l : List String) (c : String)
    (hnd : l.Nodup) (hc : c ∈ l) :
    (l.map (cityAgg rows)).find? (fun a => a.city = c) =
      some (cityAgg rows c) := by
  induction l with
  | nil => cases hc
  | cons d l ih =>
    rw [List.map_cons]
    by_cases hdc : d = c
    · subst hdc
      rw [List.find?_cons_of_pos _ (by simp [cityAgg])]
    · rw [List.find?_cons_of_neg _ (by simp [cityAgg, hdc])]
      rcases List.mem_cons.mp hc with h | h
      · exact absurd h.symm hdc
      · exact ih (List.Nodup.of_cons hnd) h

/-- The aggregate row of one city, expressed over the base rows. -/
theorem cityAgg_filtered (year : Nat) (lower : ℚ) (base : List CompanyRow)
    (c : String) :
    cityAgg (create_df_filtered year lower base) c =
      { city := c
      , marketCap := ((base.filter (fun r => r.city = c)).filterMap
          (fun r => if capBelow (r.marketCap year) lower then none
                    else r.marketCap year)).sum
      , employees := ((base.filter (fun r => r.city = c)).filterMap
          (fun r => if capBelow (r.marketCap year) lower then none
                    else r.employees year)).sum
      , x := qMean ((base.filter (fun r => r.city = c)).map (fun r => r.x))
      , y := qMean ((base.filter (fun r => r.city = c)).map (fun r => r.y))
      , symbolCount := ((base.filter (fun r => r.city = c)).filterMap
          (fun r => if capBelow (r.marketCap year) lower then none
                    else r.symbol)).length } := by
  unfold cityAgg
  rw [filter_city_map]
  simp only [optSum, qMean, List.map_map, List.filterMap_map,
    Function.comp_def, id_eq, maskStep_symbol, maskStep_marketCap,
    maskStep_employees, maskStep_x, maskStep_y]

/-- C5 counterexample: with base rows A (cap 50) and B (cap 150) in the
    same city and threshold 100, the aggregated Symbol figure of the group
    is 1 (pandas count skips the masked NaN Symbols) while the group holds
    2 rows, so the Symbol figure is not a per-group row count. -/
theorem create_df_main_symbol_count_counterexample :
    ((create_df_main 2022 100 exBaseAB).find?
      (fun a => a.city = "San Jose")).map (fun a => a.symbolCount) = some 1 ∧
    ((create_df_filtered 2022 100 exBaseAB).filter
      (fun r => r.city = "San Jose")).length = 2 := by
  exact ⟨by decide, by decide⟩

/-- C5 as amended: for every year, threshold and city occurring in the
    frame, the main table of create_df has exactly one aggregate row for
    that city, whose Market Cap and Employees are the sums of the
    non-masked cells of the base rows of that city, whose x and y are the
    means over all the base rows of that city, and whose Symbol figure is
    the count of the rows of that city whose Symbol survived the mask
    (not the row count of the group). -/
theorem create_df_main_group_aggregates (year : Nat) (lower : ℚ)
    (base : List CompanyRow) (c : String)
    (hc : c ∈ (create_df_filtered year lower base).map (fun r => r.city)) :
    (create_df_main year lower base).find? (fun a => a.city = c) =
      some { city := c
           , marketCap := ((base.filter (fun r => r.city = c)).filterMap
               (fun r => if capBelow (r.marketCap year) lower then none
                         else r.marketCap year)).sum
           , employees := ((base.filter (fun r => r.city = c)).filterMap
               (fun r => if capBelow (r.marketCap year) lower then none
                         else r.employees year)).sum
           , x := qMean ((base.filter (fun r => r.city = c)).map (fun r => r.x))
           , y := qMean ((base.filter (fun r => r.city = c)).map (fun r => r.y))
           , symbolCount := ((base.filter (fun r => r.city = c)).filterMap
               (fun r => if capBelow (r.marketCap year) lower then none
                         else r.symbol)).length } := by
  have h1 : (create_df_main year lower base).find? (fun a => a.city = c) =
      some (cityAgg (create_df_filtered year lower base) c) := by
    unfold create_df_main groupCities
    exact find?_map_cityAgg _ _ c (List.nodup_dedup _) (List.mem_dedup.mpr hc)
  rw [h1, cityAgg_filtered]

/-- Witness for the amended C5 at the scenario base table: the single
    San Jose aggregate row sums the surviving cap 150 and its 2000
    employees, averages the two coordinate pairs, and counts 1 symbol. -/
theorem create_df_main_group_aggregates_witness :
    (create_df_main 2022 100 exBaseAB).find? (fun a => a.city = "San Jose") =
      some { city := "San Jose", marketCap := 150, employees := 2000
           , x := 20, y := 30, symbolCount := 1 } := by
  have h := create_df_main_group_aggregates 2022 100 exBaseAB "San Jose"
    (by decide)
  rw [h]
  simp only [Option.some.injEq, CityAggRow.mk.injEq]
  norm_num [exBaseAB, exA, exB, capBelow, qMean, List.filterMap_cons,
    List.filterMap_nil]

/-! ### C7 and C9: the PCA pipeline structure and the base table -/

/-- Example pca_data frame: the five categorical columns followed by one
    numeric feature column, mirroring the layout that df.iloc assumes. -/
def exDf6 : Df :=
  [("Country", [Val.str "US"]), ("Industry", [Val.str "Tech"]),
   ("Company", [Val.str "Acme"]), ("Symbol", [Val.str "AC"]),
   ("Recommendation", [Val.str "Buy"]), ("Market Cap", [Val.num 5])]

/-- A concrete stand-in for the library projection in the witnesses. -/
def exProj : List (List ℚ) → List ℚ × List ℚ :=
  fun m => (m.headD [], m.headD [])

/-- A concrete stand-in for the library clustering fit in the witnesses. -/
def exKmeans : Nat → Nat → Df → List Nat :=
  fun _ _ d => List.replicate (nRows d) 0

/-- A frame whose column names avoid one name has no column of that name. -/
theorem fresh_of_regexfree (df : Df) (n : String)
    (hn : isPcaColName n = true) (h : ∀ c ∈ df, isPcaColName c.1 = false) :
    df.any (fun c => c.1 = n) = false := by
  rw [List.any_eq_false]
  intro c hc hcn
  have he : c.1 = n := of_decide_eq_true hcn
  have := h c hc
  rw [he, hn] at this
  cases this

/-- Assigning a fresh column name appends the column. -/
theorem setCol_fresh (df : Df) (n : String) (v : List Val)
    (h : df.any (fun c => c.1 = n) = false) :
    setCol df n v = df ++ [(n, v)] := by
  unfold setCol
  rw [if_neg (by simp only [h]; exact Bool.false_ne_true)]

/-- Reading a column that the left part of the frame does not have falls
    through to the right part. -/
theorem getCol_append (df l2 : Df) (n : String)
    (h : df.any (fun c => c.1 = n) = false) :
    getCol (df ++ l2) n = getCol l2 n := by
  unfold getCol
  rw [List.find?_append]
  have hnone : df.find? (fun c => c.1 = n) = none := by
    rw [List.find?_eq_none]
    intro c hc hcn
    have := (List.any_eq_false.mp h) c hc
    exact this hcn
  rw [hnone, Option.none_or]

/-- Unfolding of the pca function on a frame with no preexisting
    principal-component column: the two projected columns are appended. -/
theorem pca_eq_append (proj : List (List ℚ) → List ℚ × List ℚ) (df : Df)
    (h1 : ∀ c ∈ df, isPcaColName c.1 = false) :
    pca proj df =
      (df ++ [("PCA 1",
        (proj (((numericBlock df).map scaleCol).map imputeCol)).1.map Val.num)]) ++
      [("PCA 2",
        (proj (((numericBlock df).map scaleCol).map imputeCol)).2.map Val.num)] := by
  have hp1 : df.any (fun c => c.1 = "PCA 1") = false :=
    fresh_of_regexfree df "PCA 1" (by decide) h1
  have hp2 : (df ++ [("PCA 1",
      (proj (((numericBlock df).map scaleCol).map imputeCol)).1.map
        Val.num)]).any (fun c => c.1 = "PCA 2") = false := by
    rw [List.any_append]
    have := fresh_of_regexfree df "PCA 2" (by decide) h1
    rw [this]
    simp
  unfold pca
  dsimp only
  rw [setCol_fresh _ _ _ hp1, setCol_fresh _ _ _ hp2]

/-- C7: the dimensionality-reduction pipeline is the fixed composition the
    spec states, in the stated order: the PCA 1 and PCA 2 columns of the
    pca output are exactly the two components that the projection yields on
    the mean-imputation of the min-max scaling of the numeric feature
    block, and the cluster labels are computed by the clustering fit with
    the reset seed 0 and the given group count on exactly those two
    projected columns, whatever the ambient RNG state was. -/
theorem pca_clustering_pipeline_order
    (proj : List (List ℚ) → List ℚ × List ℚ)
    (kmeans : Nat → Nat → Df → List Nat) (rng : Nat) (df : Df) (k : Nat)
    (h1 : ∀ c ∈ df, isPcaColName c.1 = false)
    (h2 : df.any (fun c => c.1 = "Cluster") = false) :
    getCol (pca proj df) "PCA 1" =
      (proj (((numericBlock df).map scaleCol).map imputeCol)).1.map Val.num ∧
    getCol (pca proj df) "PCA 2" =
      (proj (((numericBlock df).map scaleCol).map imputeCol)).2.map Val.num ∧
    getCol (clustering kmeans rng (pca proj df) k) "Cluster" =
      (kmeans 0 k
        [("PCA 1",
          (proj (((numericBlock df).map scaleCol).map imputeCol)).1.map Val.num),
         ("PCA 2",
          (proj (((numericBlock df).map scaleCol).map imputeCol)).2.map Val.num)]).map
        (fun l => Val.str (toString l)) := by
  have hp1 : df.any (fun c => c.1 = "PCA 1") = false :=
    fresh_of_regexfree df "PCA 1" (by decide) h1
  have hp2 : df.any (fun c => c.1 = "PCA 2") = false :=
    fresh_of_regexfree df "PCA 2" (by decide) h1
  have hpca := pca_eq_append proj df h1
  refine ⟨?_, ?_, ?_⟩
  · rw [hpca, List.append_assoc, getCol_append _ _ _ hp1]
    rfl
  · rw [hpca, List.append_assoc, getCol_append _ _ _ hp2]
    rfl
  · have hXpca : (pca proj df).filter (fun c => isPcaColName c.1) =
        [("PCA 1",
          (proj (((numericBlock df).map scaleCol).map imputeCol)).1.map Val.num),
         ("PCA 2",
          (proj (((numericBlock df).map scaleCol).map imputeCol)).2.map Val.num)] := by
      rw [hpca, List.append_assoc, List.filter_append]
      rw [List.filter_eq_nil_iff.mpr (by
        intro c hc hpc
        have := h1 c hc
        rw [this] at hpc
        cases hpc)]
      rfl
    have hclfresh : (pca proj df).any (fun c => c.1 = "Cluster") = false := by
      rw [hpca, List.append_assoc, List.any_append, h2]
      simp
    unfold clustering
    dsimp only
    rw [hXpca, setCol_fresh _ _ _ hclfresh, getCol_append _ _ _ hclfresh]
    rfl

/-- Witness for C7 on the concrete frame, projection and fit. -/
theorem pca_clustering_pipeline_order_witness :
    getCol (pca exProj exDf6) "PCA 1" =
      (exProj (((numericBlock exDf6).map scaleCol).map imputeCol)).1.map Val.num ∧
    getCol (pca exProj exDf6) "PCA 2" =
      (exProj (((numericBlock exDf6).map scaleCol).map imputeCol)).2.map Val.num ∧
    getCol (clustering exKmeans 7 (pca exProj exDf6) 2) "Cluster" =
      (exKmeans 0 2
        [("PCA 1",
          (exProj (((numericBlock exDf6).map scaleCol).map imputeCol)).1.map Val.num),
         ("PCA 2",
          (exProj (((numericBlock exDf6).map scaleCol).map imputeCol)).2.map Val.num)]).map
        (fun l => Val.str (toString l)) :=
  pca_clustering_pipeline_order exProj exKmeans 7 exDf6 2 (by decide) (by decide)

/-- C9 counterexample: running the pca step of dvc_ex3.py on the base
    table changes the base table itself.  In the source, df[PCA 1] = ...
    assigns a column to the argument object in place and pca returns that
    same object, so after the module-level df = clustering(pca(pca_data))
    the loaded base table pca_data carries the appended derived columns:
    its column list afterwards differs from its column list at load. -/
theorem pca_mutates_base_columns :
    (pca exProj exDf6).map (fun c => c.1) ≠ exDf6.map (fun c => c.1) := by
  decide

/-- C9 as amended: the map application's create_df works on a pandas copy
    and leaves its base table unchanged (it is a pure function of the base
    here), while the PCA explorer's pipeline df = clustering(pca(pca_data))
    followed by the label-column assignment mutates the base table only by
    appending the derived columns PCA 1, PCA 2, Cluster and label: the
    preexisting columns, their names, their order and every cell in them
    are unchanged, as is the row count. -/
theorem base_columns_preserved_by_pipeline
    (proj : List (List ℚ) → List ℚ × List ℚ)
    (kmeans : Nat → Nat → Df → List Nat) (rng : Nat) (df : Df)
    (h1 : ∀ c ∈ df, isPcaColName c.1 = false)
    (h2 : df.any (fun c => c.1 = "Cluster") = false)
    (h3 : df.any (fun c => c.1 = "label") = false) :
    (moduleInitDf proj kmeans rng df).take df.length = df := by
  have hpca := pca_eq_append proj df h1
  have hclfresh : (pca proj df).any (fun c => c.1 = "Cluster") = false := by
    rw [hpca, List.append_assoc, List.any_append, h2]
    simp
  have hcl : clustering kmeans rng (pca proj df) 2 =
      pca proj df ++ [("Cluster",
        (kmeans 0 2 ((pca proj df).filter (fun c => isPcaColName c.1))).map
          (fun l => Val.str (toString l)))] := by
    unfold clustering
    dsimp only
    rw [setCol_fresh _ _ _ hclfresh]
  have hlbfresh : (clustering kmeans rng (pca proj df) 2).any
      (fun c => c.1 = "label") = false := by
    rw [hcl, List.any_append, hpca, List.append_assoc, List.any_append, h3]
    simp
  unfold moduleInitDf
  dsimp only
  rw [setCol_fresh _ _ _ hlbfresh, hcl, hpca]
  rw [List.append_assoc, List.append_assoc, List.append_assoc]
  exact List.take_left _ _

/-- Witness for the amended C9 on the concrete frame: the first six
    columns of the mutated base table are the loaded base table. -/
theorem base_columns_preserved_by_pipeline_witness :
    (moduleInitDf exProj exKmeans 7 exDf6).take 6 = exDf6 :=
  base_columns_preserved_by_pipeline exProj exKmeans 7 exDf6
    (by decide) (by decide) (by decide)

end DataVis
